import Mathlib

/-
Verification of the ROI calculation engine of the fleet-applications ROI
calculator (source: updated_app_py.py, section "Core Calculations",
lines 196-232, together with the effective-saving-percent computation of
lines 184-194 and the application catalog of lines 149-156).

Modelling conventions:
- Python numbers are embedded as rationals; the arithmetic of the engine
  is exact on the inputs considered here.
- The IEEE not-a-number sentinel produced by the guarded conditional
  expressions (np.nan) is embedded as the value none of Option.
  A guarded expression `e if c else np.nan` becomes
  `if c then some e else none`, with Python truthiness of a number c
  meaning c is nonzero.
- The one unguarded division of the script (the year-2 entry of the
  yearly ROI series, line 230) can raise ZeroDivisionError; it is
  embedded through pydiv, which returns Except.
-/

namespace ROI

/-- Constant from line 17 of the source: USD per vessel per month. -/
def LICENSE_COST_PER_VESSEL_PER_MONTH : ℚ := 300

/-- Catalog entry of the applications dictionary (lines 149-156): the
min, max and default saving percentages (icons are presentation only). -/
structure AppInfo where
  min : ℚ
  max : ℚ
  default : ℚ
deriving DecidableEq, Repr

/-- The fixed, ordered application catalog of lines 149-156. -/
def applications : List (String × AppInfo) :=
  [("Hull Maintainance App", ⟨0, 15, 3⟩),
   ("Voyage Optimization App", ⟨0, 6, 2⟩),
   ("Emission App", ⟨0, 3, 1.5⟩),
   ("Performance App", ⟨0, 3, 1⟩),
   ("Propulsion Pro", ⟨0, 4, 0⟩),
   ("Bunker management", ⟨0, 7, 0⟩)]

/-- The catalog keys in catalog order (applications.keys() on line 204). -/
def appNames : List String := applications.map Prod.fst

/-- Per-application user selection: the checkbox state (line 174) and
the slider value (lines 187-192). -/
structure AppSelection where
  selected : Bool
  savingPercent : ℚ
deriving DecidableEq, Repr

/-- The sidebar fleet inputs of lines 140-143. -/
structure FleetParameters where
  fleet_size : ℚ
  fuel_price : ℚ
  daily_consumption : ℚ
  operating_days : ℚ
deriving DecidableEq, Repr

/-- Effective saving percent (lines 184-194): the slider value when the
application is selected, else 0.0. -/
def app_savings (sel : String → AppSelection) (name : String) : ℚ :=
  if (sel name).selected then (sel name).savingPercent else 0

/-- Line 197: license_cost_annual = fleet_size * 300 * 12. -/
def license_cost_annual (p : FleetParameters) : ℚ :=
  p.fleet_size * LICENSE_COST_PER_VESSEL_PER_MONTH * 12

/-- Line 198: baseline_fuel_cost = fleet_size * daily_consumption *
operating_days * fuel_price. -/
def baseline_fuel_cost (p : FleetParameters) : ℚ :=
  p.fleet_size * p.daily_consumption * p.operating_days * p.fuel_price

/-- Lines 204-207: the dictionary app_saving_amounts built in catalog
order, saving_amount = baseline_fuel_cost * saving_percentage / 100. -/
def app_saving_amounts (p : FleetParameters) (sel : String → AppSelection) :
    List (String × ℚ) :=
  appNames.map (fun name => (name, baseline_fuel_cost p * app_savings sel name / 100))

/-- Lines 202-208: total_savings accumulated over the catalog loop. -/
def total_savings (p : FleetParameters) (sel : String → AppSelection) : ℚ :=
  (app_saving_amounts p sel).foldl (fun acc x => acc + x.2) 0

/-- Line 211: payback_years = license_cost_annual / total_savings if
total_savings else np.nan. -/
def payback_years (p : FleetParameters) (sel : String → AppSelection) : Option ℚ :=
  if total_savings p sel = 0 then none
  else some (license_cost_annual p / total_savings p sel)

/-- Line 212: payback_months = payback_years * 12 if payback_years else
np.nan. Python truthiness: NaN is truthy (and NaN * 12 = NaN), while the
number 0.0 is falsy, so a zero payback_years also yields NaN. -/
def payback_months (p : FleetParameters) (sel : String → AppSelection) : Option ℚ :=
  match payback_years p sel with
  | none => none
  | some y => if y = 0 then none else some (y * 12)

/-- Line 213: roi_percent = ((total_savings - license_cost_annual) /
license_cost_annual) * 100 if license_cost_annual else np.nan. -/
def roi_percent (p : FleetParameters) (sel : String → AppSelection) : Option ℚ :=
  if license_cost_annual p = 0 then none
  else some ((total_savings p sel - license_cost_annual p) / license_cost_annual p * 100)

/-- Line 216: fuel_saved = sum(app_saving_amounts.values()) / fuel_price. -/
def fuel_saved (p : FleetParameters) (sel : String → AppSelection) : ℚ :=
  (app_saving_amounts p sel).foldl (fun acc x => acc + x.2) 0 / p.fuel_price

/-- Line 217: emissions_reduced = fuel_saved * 3.114. -/
def emissions_reduced (p : FleetParameters) (sel : String → AppSelection) : ℚ :=
  fuel_saved p sel * (3.114 : ℚ)

/-- Line 221: license_cost_total = license_cost_annual * 3. -/
def license_cost_total (p : FleetParameters) : ℚ :=
  license_cost_annual p * 3

/-- Line 222: total_savings_3yr = total_savings * 3. -/
def total_savings_3yr (p : FleetParameters) (sel : String → AppSelection) : ℚ :=
  total_savings p sel * 3

/-- Line 223: roi_percent_3yr, guarded on license_cost_total like
roi_percent. -/
def roi_percent_3yr (p : FleetParameters) (sel : String → AppSelection) : Option ℚ :=
  if license_cost_total p = 0 then none
  else some ((total_savings_3yr p sel - license_cost_total p) / license_cost_total p * 100)

/-- Line 224: fuel_saved_3yr = fuel_saved * 3. -/
def fuel_saved_3yr (p : FleetParameters) (sel : String → AppSelection) : ℚ :=
  fuel_saved p sel * 3

/-- Line 225: emissions_reduced_3yr = emissions_reduced * 3. -/
def emissions_reduced_3yr (p : FleetParameters) (sel : String → AppSelection) : ℚ :=
  emissions_reduced p sel * 3

/-- Unguarded Python division, which raises ZeroDivisionError on a zero
denominator. -/
def pydiv (a b : ℚ) : Except Unit ℚ :=
  if b = 0 then Except.error () else Except.ok (a / b)

/-- Line 230: yearly_roi = [roi_percent, ((total_savings * 2 -
license_cost_annual * 2) / (license_cost_annual * 2)) * 100,
roi_percent_3yr]. The middle entry divides without a zero-guard, so the
whole list construction raises when license_cost_annual * 2 = 0. -/
def yearly_roi (p : FleetParameters) (sel : String → AppSelection) :
    Except Unit (List (Option ℚ)) :=
  match pydiv (total_savings p sel * 2 - license_cost_annual p * 2)
      (license_cost_annual p * 2) with
  | Except.error e => Except.error e
  | Except.ok y2 => Except.ok [roi_percent p sel, some (y2 * 100), roi_percent_3yr p sel]

/-- Line 229: yearly_savings = [total_savings] * 3. -/
def yearly_savings (p : FleetParameters) (sel : String → AppSelection) : List ℚ :=
  List.replicate 3 (total_savings p sel)

/-- Line 231: yearly_fuel_saved = [fuel_saved] * 3. -/
def yearly_fuel_saved (p : FleetParameters) (sel : String → AppSelection) : List ℚ :=
  List.replicate 3 (fuel_saved p sel)

/-- Line 232: cumulative_savings = [total_savings, total_savings * 2,
total_savings * 3]. -/
def cumulative_savings (p : FleetParameters) (sel : String → AppSelection) : List ℚ :=
  [total_savings p sel, total_savings p sel * 2, total_savings p sel * 3]

instance {ε α : Type} [DecidableEq ε] [DecidableEq α] : DecidableEq (Except ε α) :=
  fun a b =>
    match a, b with
    | Except.error x, Except.error y =>
      if h : x = y then isTrue (by rw [h]) else isFalse (fun hc => by cases hc; exact h rfl)
    | Except.ok x, Except.ok y =>
      if h : x = y then isTrue (by rw [h]) else isFalse (fun hc => by cases hc; exact h rfl)
    | Except.error _, Except.ok _ => isFalse (fun hc => by cases hc)
    | Except.ok _, Except.error _ => isFalse (fun hc => by cases hc)

/-- The fields computed only under the 3-year view (lines 220-232). -/
structure ThreeYearView where
  license_cost_total : ℚ
  total_savings_3yr : ℚ
  roi_percent_3yr : Option ℚ
  fuel_saved_3yr : ℚ
  emissions_reduced_3yr : ℚ
  yearly_savings : List ℚ
  yearly_roi : Except Unit (List (Option ℚ))
  yearly_fuel_saved : List ℚ
  cumulative_savings : List ℚ
deriving DecidableEq, Repr

/-- The 3-year fields assembled from the inputs. -/
def threeYearView (p : FleetParameters) (sel : String → AppSelection) : ThreeYearView :=
  ⟨license_cost_total p, total_savings_3yr p sel, roi_percent_3yr p sel,
   fuel_saved_3yr p sel, emissions_reduced_3yr p sel,
   yearly_savings p sel, yearly_roi p sel, yearly_fuel_saved p sel,
   cumulative_savings p sel⟩

/-- The full metrics record derived by the Core Calculations section. -/
structure MetricsResult where
  license_cost_annual : ℚ
  baseline_fuel_cost : ℚ
  app_saving_amounts : List (String × ℚ)
  total_savings : ℚ
  payback_years : Option ℚ
  payback_months : Option ℚ
  roi_percent : Option ℚ
  fuel_saved : ℚ
  emissions_reduced : ℚ
  threeYear : Option ThreeYearView
deriving DecidableEq, Repr

/-- The engine as one pure function of the fleet parameters, the
application selections and the 3-year checkbox (line 135). -/
def computeMetrics (p : FleetParameters) (sel : String → AppSelection)
    (view_3_years : Bool) : MetricsResult :=
  ⟨license_cost_annual p, baseline_fuel_cost p, app_saving_amounts p sel,
   total_savings p sel, payback_years p sel, payback_months p sel,
   roi_percent p sel, fuel_saved p sel, emissions_reduced p sel,
   if view_3_years then some (threeYearView p sel) else none⟩

/-- Replace the savingPercent carried for one application, keeping its
selected flag and every other application untouched. -/
def updatePercent (sel : String → AppSelection) (name : String) (q : ℚ) :
    String → AppSelection :=
  fun m => if m = name then ⟨(sel m).selected, q⟩ else sel m

/-- The fleet parameters of the concrete scenario in the spec. -/
def scenario_params : FleetParameters := ⟨10, 550, 50, 330⟩

/-- The selection of the concrete scenario: only the hull maintenance
application is selected, at 3.0 percent. -/
def scenario_sel : String → AppSelection :=
  fun name => if name = "Hull Maintainance App" then ⟨true, 3⟩ else ⟨false, 0⟩

/-- A selection with no application selected, each carrying a nonzero
slider value. -/
def none_sel : String → AppSelection := fun _ => ⟨false, 5⟩

/-- A selection with every application selected at 100 percent, far
above every catalog max. -/
def overmax_sel : String → AppSelection := fun _ => ⟨true, 100⟩

/-- The fleet parameters with fleet_size doubled, everything else
unchanged. -/
def doubleFleet (p : FleetParameters) : FleetParameters :=
  { p with fleet_size := 2 * p.fleet_size }

/-- Fleet parameters with an empty fleet (excluded by the UI input
bounds, reachable only when the engine is called directly). -/
def zero_fleet_params : FleetParameters := ⟨0, 550, 50, 330⟩

lemma payback_years_eq (p : FleetParameters) (sel : String → AppSelection)
    (h : total_savings p sel ≠ 0) :
    payback_years p sel = some (license_cost_annual p / total_savings p sel) := by
  unfold payback_years
  rw [if_neg h]

lemma payback_months_eq (p : FleetParameters) (sel : String → AppSelection)
    (h : total_savings p sel ≠ 0) (hl : license_cost_annual p ≠ 0) :
    payback_months p sel = some (license_cost_annual p / total_savings p sel * 12) := by
  unfold payback_months
  rw [payback_years_eq p sel h]
  have hy : license_cost_annual p / total_savings p sel ≠ 0 := div_ne_zero hl h
  simp [hy]

lemma roi_percent_eq (p : FleetParameters) (sel : String → AppSelection)
    (hl : license_cost_annual p ≠ 0) :
    roi_percent p sel =
      some ((total_savings p sel - license_cost_annual p) / license_cost_annual p * 100) := by
  unfold roi_percent
  rw [if_neg hl]

lemma payback_years_none (p : FleetParameters) (sel : String → AppSelection)
    (h : total_savings p sel = 0) : payback_years p sel = none := by
  unfold payback_years
  rw [if_pos h]

lemma payback_months_none (p : FleetParameters) (sel : String → AppSelection)
    (h : total_savings p sel = 0) : payback_months p sel = none := by
  unfold payback_months
  rw [payback_years_none p sel h]

lemma roi_percent_none (p : FleetParameters) (sel : String → AppSelection)
    (h : license_cost_annual p = 0) : roi_percent p sel = none := by
  unfold roi_percent
  rw [if_pos h]

lemma fleet_size_eq_zero_of_license (p : FleetParameters)
    (h : license_cost_annual p = 0) : p.fleet_size = 0 := by
  unfold license_cost_annual LICENSE_COST_PER_VESSEL_PER_MONTH at h
  linarith

lemma total_savings_eq_zero_of_license (p : FleetParameters) (sel : String → AppSelection)
    (h : license_cost_annual p = 0) : total_savings p sel = 0 := by
  have hf := fleet_size_eq_zero_of_license p h
  have hb : baseline_fuel_cost p = 0 := by
    unfold baseline_fuel_cost
    rw [hf]
    ring
  simp [total_savings, app_saving_amounts, appNames, applications, hb]

lemma license_ne_zero_of_total (p : FleetParameters) (sel : String → AppSelection)
    (h : total_savings p sel ≠ 0) : license_cost_annual p ≠ 0 :=
  fun hl => h (total_savings_eq_zero_of_license p sel hl)

/-- Claim C1: for fleetSize=10, fuelPricePerTon=550,
dailyFuelConsumptionTons=50, operatingDays=330, with only the hull
maintenance application selected at 3.0 percent, the engine returns
licenseCostAnnual = 36000, baselineFuelCost = 90750000,
totalSavingsAnnual = 2722500 all attributed to that one application,
paybackMonths = 36000/2722500*12, roiPercentAnnual =
(2722500-36000)/36000*100, fuelSavedTons = 4950 and
emissionsReducedTons = 4950 * 3.114 = 15414.3. -/
theorem concrete_scenario_hull_only :
    license_cost_annual scenario_params = 36000 ∧
    baseline_fuel_cost scenario_params = 90750000 ∧
    total_savings scenario_params scenario_sel = 2722500 ∧
    app_saving_amounts scenario_params scenario_sel =
      [("Hull Maintainance App", 2722500), ("Voyage Optimization App", 0),
       ("Emission App", 0), ("Performance App", 0),
       ("Propulsion Pro", 0), ("Bunker management", 0)] ∧
    payback_months scenario_params scenario_sel = some (36000 / 2722500 * 12) ∧
    roi_percent scenario_params scenario_sel =
      some ((2722500 - 36000) / 36000 * 100) ∧
    fuel_saved scenario_params scenario_sel = 4950 ∧
    emissions_reduced scenario_params scenario_sel = 4950 * (3.114 : ℚ) ∧
    emissions_reduced scenario_params scenario_sel = (15414.3 : ℚ) := by
  have hlic : license_cost_annual scenario_params = 36000 := by
    norm_num [license_cost_annual, scenario_params, LICENSE_COST_PER_VESSEL_PER_MONTH]
  have hbase : baseline_fuel_cost scenario_params = 90750000 := by
    norm_num [baseline_fuel_cost, scenario_params]
  have htot : total_savings scenario_params scenario_sel = 2722500 := by
    simp [total_savings, app_saving_amounts, appNames, applications, app_savings,
      scenario_sel, baseline_fuel_cost, scenario_params, String.reduceEq]
    try norm_num
  have happ : app_saving_amounts scenario_params scenario_sel =
      [("Hull Maintainance App", 2722500), ("Voyage Optimization App", 0),
       ("Emission App", 0), ("Performance App", 0),
       ("Propulsion Pro", 0), ("Bunker management", 0)] := by
    simp [app_saving_amounts, appNames, applications, app_savings,
      scenario_sel, baseline_fuel_cost, scenario_params, String.reduceEq]
    try norm_num
  have hfuel : fuel_saved scenario_params scenario_sel = 4950 := by
    simp [fuel_saved, app_saving_amounts, appNames, applications, app_savings,
      scenario_sel, baseline_fuel_cost, scenario_params, String.reduceEq]
    try norm_num
  refine ⟨hlic, hbase, htot, happ, ?_, ?_, hfuel, ?_, ?_⟩
  · rw [payback_months_eq scenario_params scenario_sel (by rw [htot]; norm_num)
      (by rw [hlic]; norm_num), htot, hlic]
  · rw [roi_percent_eq scenario_params scenario_sel (by rw [hlic]; norm_num), htot, hlic]
  · simp [emissions_reduced, hfuel]
  · simp [emissions_reduced, hfuel]
    norm_num

/-- Claim C2: for every input, the guarded ratio fields signal an
undefined value only through the not-a-number sentinel (none) and never
by raising: payback_years and payback_months are the sentinel exactly
when total_savings = 0, and otherwise payback_years =
license_cost_annual / total_savings and payback_months is 12 times
that; roi_percent is the sentinel exactly when license_cost_annual = 0,
and otherwise equals (total_savings - license_cost_annual) /
license_cost_annual * 100. -/
theorem undefined_ratio_sentinels (p : FleetParameters) (sel : String → AppSelection) :
    (payback_years p sel = none ↔ total_savings p sel = 0) ∧
    (payback_months p sel = none ↔ total_savings p sel = 0) ∧
    (total_savings p sel ≠ 0 →
      payback_years p sel = some (license_cost_annual p / total_savings p sel) ∧
      payback_months p sel = some (license_cost_annual p / total_savings p sel * 12)) ∧
    (roi_percent p sel = none ↔ license_cost_annual p = 0) ∧
    (license_cost_annual p ≠ 0 →
      roi_percent p sel =
        some ((total_savings p sel - license_cost_annual p) / license_cost_annual p * 100)) := by
  refine ⟨?_, ?_, ?_, ?_, ?_⟩
  · constructor
    · intro hn
      by_contra h
      rw [payback_years_eq p sel h] at hn
      exact Option.noConfusion hn
    · exact payback_years_none p sel
  · constructor
    · intro hn
      by_contra h
      rw [payback_months_eq p sel h (license_ne_zero_of_total p sel h)] at hn
      exact Option.noConfusion hn
    · exact payback_months_none p sel
  · intro h
    exact ⟨payback_years_eq p sel h,
      payback_months_eq p sel h (license_ne_zero_of_total p sel h)⟩
  · constructor
    · intro hn
      by_contra hl
      rw [roi_percent_eq p sel hl] at hn
      exact Option.noConfusion hn
    · exact roi_percent_none p sel
  · intro hl
    exact roi_percent_eq p sel hl

theorem undefined_ratio_sentinels_witness :
    payback_years scenario_params scenario_sel =
      some (license_cost_annual scenario_params / total_savings scenario_params scenario_sel) ∧
    payback_months scenario_params scenario_sel =
      some (license_cost_annual scenario_params / total_savings scenario_params scenario_sel * 12) ∧
    roi_percent scenario_params scenario_sel =
      some ((total_savings scenario_params scenario_sel - license_cost_annual scenario_params) /
        license_cost_annual scenario_params * 100) := by
  have htot : total_savings scenario_params scenario_sel ≠ 0 := by
    simp [total_savings, app_saving_amounts, appNames, applications, app_savings,
      scenario_sel, baseline_fuel_cost, scenario_params, String.reduceEq]
  have hlic : license_cost_annual scenario_params ≠ 0 := by
    norm_num [license_cost_annual, scenario_params, LICENSE_COST_PER_VESSEL_PER_MONTH]
  have h := undefined_ratio_sentinels scenario_params scenario_sel
  exact ⟨(h.2.2.1 htot).1, (h.2.2.1 htot).2, h.2.2.2.2 hlic⟩

/-- Claim C3: for every positive fleet size, fuel price, daily
consumption and operating days, if no application is selected then
total_savings = 0, payback_months is the not-a-number sentinel, and
roi_percent = -100 whenever license_cost_annual is positive. -/
theorem no_apps_selected_metrics (p : FleetParameters) (sel : String → AppSelection)
    (hf : 0 < p.fleet_size) (hp : 0 < p.fuel_price) (hd : 0 < p.daily_consumption)
    (ho : 0 < p.operating_days)
    (hnone : ∀ name ∈ appNames, (sel name).selected = false) :
    total_savings p sel = 0 ∧ payback_months p sel = none ∧
    (0 < license_cost_annual p → roi_percent p sel = some (-100)) := by
  have h1 := hnone "Hull Maintainance App" (by simp [appNames, applications])
  have h2 := hnone "Voyage Optimization App" (by simp [appNames, applications])
  have h3 := hnone "Emission App" (by simp [appNames, applications])
  have h4 := hnone "Performance App" (by simp [appNames, applications])
  have h5 := hnone "Propulsion Pro" (by simp [appNames, applications])
  have h6 := hnone "Bunker management" (by simp [appNames, applications])
  have htot : total_savings p sel = 0 := by
    simp [total_savings, app_saving_amounts, appNames, applications, app_savings,
      h1, h2, h3, h4, h5, h6]
  refine ⟨htot, ?_, ?_⟩
  · exact payback_months_none p sel htot
  · intro hl
    have hl' : license_cost_annual p ≠ 0 := ne_of_gt hl
    rw [roi_percent_eq p sel hl', htot]
    congr 1
    field_simp

theorem no_apps_selected_metrics_witness :
    total_savings scenario_params none_sel = 0 ∧
    payback_months scenario_params none_sel = none ∧
    roi_percent scenario_params none_sel = some (-100) := by
  have h := no_apps_selected_metrics scenario_params none_sel
    (by norm_num [scenario_params]) (by norm_num [scenario_params])
    (by norm_num [scenario_params]) (by norm_num [scenario_params])
    (fun name _ => rfl)
  exact ⟨h.1, h.2.1, h.2.2
    (by norm_num [license_cost_annual, scenario_params, LICENSE_COST_PER_VESSEL_PER_MONTH])⟩

lemma app_savings_updatePercent (sel : String → AppSelection) (name : String) (q : ℚ)
    (m : String) (hsel : (sel name).selected = false) :
    app_savings (updatePercent sel name q) m = app_savings sel m := by
  unfold app_savings updatePercent
  by_cases h : m = name
  · subst h
    simp [hsel]
  · simp [h]

lemma app_saving_amounts_updatePercent (p : FleetParameters) (sel : String → AppSelection)
    (name : String) (q : ℚ) (hsel : (sel name).selected = false) :
    app_saving_amounts p (updatePercent sel name q) = app_saving_amounts p sel := by
  unfold app_saving_amounts
  have hfun : (fun n => (n, baseline_fuel_cost p * app_savings (updatePercent sel name q) n / 100)) =
      (fun n => (n, baseline_fuel_cost p * app_savings sel n / 100)) := by
    funext m
    rw [app_savings_updatePercent sel name q m hsel]
  rw [hfun]

/-- Claim C4: for every input and every application in the catalog, if
that application is unselected then its entry in the per-application
savings mapping is 0, and the result is unchanged if any other
savingPercent value is carried by its selection. -/
theorem unselected_app_contributes_zero (p : FleetParameters) (sel : String → AppSelection)
    (name : String) (q : ℚ) (hmem : name ∈ appNames)
    (hsel : (sel name).selected = false) :
    List.lookup name (app_saving_amounts p sel) = some 0 ∧
    app_saving_amounts p (updatePercent sel name q) = app_saving_amounts p sel ∧
    total_savings p (updatePercent sel name q) = total_savings p sel := by
  refine ⟨?_, app_saving_amounts_updatePercent p sel name q hsel, ?_⟩
  · simp [appNames, applications] at hmem
    rcases hmem with rfl | rfl | rfl | rfl | rfl | rfl <;>
      simp [app_saving_amounts, appNames, applications, List.lookup, app_savings,
        hsel, String.reduceEq]
  · unfold total_savings
    rw [app_saving_amounts_updatePercent p sel name q hsel]

theorem unselected_app_contributes_zero_witness :
    List.lookup "Voyage Optimization App" (app_saving_amounts scenario_params scenario_sel) =
      some 0 ∧
    app_saving_amounts scenario_params
      (updatePercent scenario_sel "Voyage Optimization App" 7) =
      app_saving_amounts scenario_params scenario_sel ∧
    total_savings scenario_params
      (updatePercent scenario_sel "Voyage Optimization App" 7) =
      total_savings scenario_params scenario_sel :=
  unselected_app_contributes_zero scenario_params scenario_sel "Voyage Optimization App" 7
    (by simp [appNames, applications]) (by simp [scenario_sel, String.reduceEq])

/-- Claim C5: doubling fleet_size while holding the other fleet
parameters and all application selections fixed exactly doubles
license_cost_annual, baseline_fuel_cost, every entry of the
per-application savings mapping, and total_savings. -/
theorem fleet_size_doubling_linearity (p : FleetParameters) (sel : String → AppSelection) :
    license_cost_annual (doubleFleet p) = 2 * license_cost_annual p ∧
    baseline_fuel_cost (doubleFleet p) = 2 * baseline_fuel_cost p ∧
    app_saving_amounts (doubleFleet p) sel =
      (app_saving_amounts p sel).map (fun x => (x.1, 2 * x.2)) ∧
    total_savings (doubleFleet p) sel = 2 * total_savings p sel := by
  have hb : baseline_fuel_cost (doubleFleet p) = 2 * baseline_fuel_cost p := by
    unfold baseline_fuel_cost doubleFleet
    simp
    ring
  have hl : license_cost_annual (doubleFleet p) = 2 * license_cost_annual p := by
    unfold license_cost_annual doubleFleet
    simp
    ring
  have ha : app_saving_amounts (doubleFleet p) sel =
      (app_saving_amounts p sel).map (fun x => (x.1, 2 * x.2)) := by
    simp [app_saving_amounts, appNames, applications, hb]
    exact ⟨by ring, by ring, by ring, by ring, by ring, by ring⟩
  refine ⟨hl, hb, ha, ?_⟩
  simp [total_savings, app_saving_amounts, appNames, applications, hb]
  ring

/-- Claim C6: under the 3-year view, the 3-year fields are exactly
three times the corresponding 1-year values: license_cost_total,
total_savings_3yr, fuel_saved_3yr and emissions_reduced_3yr. -/
theorem three_year_fields_triple (p : FleetParameters) (sel : String → AppSelection) :
    license_cost_total p = 3 * license_cost_annual p ∧
    total_savings_3yr p sel = 3 * total_savings p sel ∧
    fuel_saved_3yr p sel = 3 * fuel_saved p sel ∧
    emissions_reduced_3yr p sel = 3 * emissions_reduced p sel ∧
    (computeMetrics p sel true).threeYear = some (threeYearView p sel) :=
  ⟨by unfold license_cost_total; ring, by unfold total_savings_3yr; ring,
   by unfold fuel_saved_3yr; ring, by unfold emissions_reduced_3yr; ring, rfl⟩

/-- Claim C7: for every input, emissions_reduced equals fuel_saved *
3.114 exactly, and fuel_saved equals total_savings / fuel_price. -/
theorem emissions_factor_exact (p : FleetParameters) (sel : String → AppSelection) :
    emissions_reduced p sel = fuel_saved p sel * (3.114 : ℚ) ∧
    fuel_saved p sel = total_savings p sel / p.fuel_price :=
  ⟨rfl, rfl⟩

/-- Claim C8: the engine never clamps savingPercent: for every selected
application with any savingPercent, including values outside the
catalog min and max bounds, its saving amount is baseline_fuel_cost *
savingPercent / 100 with the value taken as given. -/
theorem no_clamping_saving_percent (p : FleetParameters) (sel : String → AppSelection)
    (name : String) (hmem : name ∈ appNames) (hsel : (sel name).selected = true) :
    List.lookup name (app_saving_amounts p sel) =
      some (baseline_fuel_cost p * (sel name).savingPercent / 100) := by
  simp [appNames, applications] at hmem
  rcases hmem with rfl | rfl | rfl | rfl | rfl | rfl <;>
    simp [app_saving_amounts, appNames, applications, List.lookup, app_savings,
      hsel, String.reduceEq]

theorem no_clamping_saving_percent_witness :
    List.lookup "Hull Maintainance App" (app_saving_amounts scenario_params overmax_sel) =
      some (baseline_fuel_cost scenario_params *
        (overmax_sel "Hull Maintainance App").savingPercent / 100) :=
  no_clamping_saving_percent scenario_params overmax_sel "Hull Maintainance App"
    (by simp [appNames, applications]) rfl

/-- Claim C9: the engine is deterministic: two invocations with equal
fleet parameters, equal application selections and equal 3-year flag
produce equal MetricsResult values in every field. -/
theorem engine_deterministic (p q : FleetParameters) (sel tel : String → AppSelection)
    (b c : Bool) (hp : p = q) (hs : sel = tel) (hb : b = c) :
    computeMetrics p sel b = computeMetrics q tel c := by
  subst hp
  subst hs
  subst hb
  rfl

theorem engine_deterministic_witness :
    computeMetrics scenario_params scenario_sel true =
      computeMetrics scenario_params scenario_sel true :=
  engine_deterministic scenario_params scenario_params scenario_sel scenario_sel
    true true rfl rfl rfl

/-- Claim C10: when the 3-year view is computed with
license_cost_annual = 0, the year-2 entry of the yearly ROI series
divides by license_cost_annual * 2 without a zero-guard and the list
construction raises (Except.error), while roi_percent and
roi_percent_3yr return the not-a-number sentinel; and under the
precondition fleet_size >= 1 the error branch is unreachable and the
series is produced. -/
theorem yearly_roi_year2_division (p : FleetParameters) (sel : String → AppSelection) :
    (license_cost_annual p = 0 →
      yearly_roi p sel = Except.error () ∧
      roi_percent p sel = none ∧ roi_percent_3yr p sel = none) ∧
    (1 ≤ p.fleet_size →
      yearly_roi p sel = Except.ok [roi_percent p sel,
        some ((total_savings p sel * 2 - license_cost_annual p * 2) /
          (license_cost_annual p * 2) * 100),
        roi_percent_3yr p sel]) := by
  constructor
  · intro hl
    have h2 : license_cost_annual p * 2 = 0 := by
      rw [hl]
      ring
    have h3 : license_cost_total p = 0 := by
      unfold license_cost_total
      rw [hl]
      ring
    refine ⟨?_, roi_percent_none p sel hl, ?_⟩
    · unfold yearly_roi pydiv
      rw [if_pos h2]
    · unfold roi_percent_3yr
      rw [if_pos h3]
  · intro hf
    have hpos : 0 < license_cost_annual p := by
      unfold license_cost_annual LICENSE_COST_PER_VESSEL_PER_MONTH
      nlinarith [hf]
    have h2 : license_cost_annual p * 2 ≠ 0 := by
      intro h
      nlinarith [hpos]
    unfold yearly_roi pydiv
    rw [if_neg h2]

theorem yearly_roi_year2_division_witness :
    yearly_roi zero_fleet_params scenario_sel = Except.error () ∧
    roi_percent zero_fleet_params scenario_sel = none ∧
    yearly_roi scenario_params scenario_sel = Except.ok
      [roi_percent scenario_params scenario_sel,
       some ((total_savings scenario_params scenario_sel * 2 -
         license_cost_annual scenario_params * 2) /
         (license_cost_annual scenario_params * 2) * 100),
       roi_percent_3yr scenario_params scenario_sel] := by
  have h0 := (yearly_roi_year2_division zero_fleet_params scenario_sel).1
    (by norm_num [license_cost_annual, zero_fleet_params, LICENSE_COST_PER_VESSEL_PER_MONTH])
  have h1 := (yearly_roi_year2_division scenario_params scenario_sel).2
    (by norm_num [scenario_params])
  exact ⟨h0.1, h0.2.1, h1⟩

end ROI
